import Mathlib

/-!
Shallow embedding of the dual-transport delivery core of the secure-chat-ipfs
repository: the IPFSService class (src/services/ipfs-service.js) and the
Express / Socket.IO server handlers that dispatch messages over the live
WebSocket channel and the IPFS fallback store.

JS effects are made explicit: the clock reading (new Date()), the entropy draw
(crypto.randomBytes), and every network call outcome are passed as arguments,
and each handler returns a record of everything the caller can observe.
-/

namespace SecureChat

/-- JS `a || b` for an optional string field: `undefined` and the empty string
are falsy and select the default. -/
def jsOrStr (v : Option String) (dflt : String) : String :=
  match v with
  | some s => if s = "" then dflt else s
  | none => dflt

/-- JS `a || b` for an optional boolean field: `undefined` and `false` are
falsy and select the default. -/
def jsOrBool (v : Option Bool) (dflt : Bool) : Bool :=
  match v with
  | some b => if b then b else dflt
  | none => dflt

/-- JS `a || b` for an optional numeric field: `undefined` and `0` are falsy
and select the default. -/
def jsOrNum (v : Option Nat) (dflt : Nat) : Nat :=
  match v with
  | some n => if n = 0 then dflt else n
  | none => dflt

/-- The options object passed to `new IPFSService(config)`; `none` models an
absent (`undefined`) field. -/
structure IPFSUserConfig where
  apiUrl : Option String
  gateways : Option (List String)
  pubsubEnabled : Option Bool
  timeout : Option Nat
deriving DecidableEq

/-- The `this.config` record the service keeps. -/
structure IPFSConfig where
  apiUrl : String
  gateways : List String
  pubsubEnabled : Bool
  timeout : Nat
deriving DecidableEq

/-- The `this.config = { ... }` block of the IPFSService constructor: each field
is `config.field || default`.  A JS array (even `[]`) is truthy, so `gateways`
falls back to the default list only when the field is absent. -/
def mkServiceConfig (c : IPFSUserConfig) : IPFSConfig where
  apiUrl := jsOrStr c.apiUrl "http://ipfs:5001/api/v0"
  gateways := c.gateways.getD ["https://cloudflare-ipfs.com", "https://ipfs.io"]
  pubsubEnabled := jsOrBool c.pubsubEnabled true
  timeout := jsOrNum c.timeout 15000

/-- `IPFSService.pubsubPublish(topic, data)`.  `net` is the outcome of the HTTP
call to `/pubsub/pub`.  The result `.ok b` means the method returned normally,
with `b` recording whether the network publish call was attempted at all;
`.error e` means the network failure propagated to the caller.  When
`config.pubsubEnabled` is false the method returns at once: no call, no error. -/
def pubsubPublish (cfg : IPFSConfig) (topic : String) (message : String)
    (net : Except String Unit) : Except String Bool :=
  if cfg.pubsubEnabled then
    match net with
    | .ok _ => .ok true
    | .error e => .error e
  else
    .ok false

/-- Decimal digit character of `n % 10`, as JS renders fixed-width numeric
fields. -/
def decDigit (n : Nat) : Char :=
  match n % 10 with
  | 0 => '0' | 1 => '1' | 2 => '2' | 3 => '3' | 4 => '4'
  | 5 => '5' | 6 => '6' | 7 => '7' | 8 => '8' | _ => '9'

/-- Lowercase hex digit character of `n % 16`, as `Buffer.toString("hex")`
renders a nibble. -/
def hexDigit (n : Nat) : Char :=
  match n % 16 with
  | 0 => '0' | 1 => '1' | 2 => '2' | 3 => '3' | 4 => '4'
  | 5 => '5' | 6 => '6' | 7 => '7' | 8 => '8' | 9 => '9'
  | 10 => 'a' | 11 => 'b' | 12 => 'c' | 13 => 'd' | 14 => 'e' | _ => 'f'

/-- Hex rendering of one byte: high nibble then low nibble. -/
def byteToHex (b : Nat) : List Char := [hexDigit (b / 16), hexDigit (b % 16)]

/-- Characters of `Buffer.from(bytes).toString("hex")`. -/
def hexOfBytes : List Nat → List Char
  | [] => []
  | b :: bs => byteToHex b ++ hexOfBytes bs

/-- `Buffer.from(bytes).toString("hex")`. -/
def bytesToHex (bs : List Nat) : String := ⟨hexOfBytes bs⟩

/-- A UTC clock reading: the components `Date.prototype.toISOString` renders. -/
structure DateTime where
  year : Nat
  month : Nat
  day : Nat
  hour : Nat
  minute : Nat
  second : Nat
  millis : Nat
deriving DecidableEq

/-- Two-digit field of `toISOString`. -/
def pad2 (n : Nat) : List Char := [decDigit (n / 10), decDigit n]

/-- Three-digit field of `toISOString`. -/
def pad3 (n : Nat) : List Char := [decDigit (n / 100), decDigit (n / 10), decDigit n]

/-- Four-digit field of `toISOString`. -/
def pad4 (n : Nat) : List Char := [decDigit (n / 1000), decDigit (n / 100), decDigit (n / 10), decDigit n]

/-- `new Date().toISOString()`: the 24-character UTC form
`YYYY-MM-DDTHH:MM:SS.mmmZ`. -/
def toISOString (d : DateTime) : String :=
  ⟨pad4 d.year ++ '-' :: pad2 d.month ++ '-' :: pad2 d.day ++
    'T' :: pad2 d.hour ++ ':' :: pad2 d.minute ++ ':' :: pad2 d.second ++
    '.' :: pad3 d.millis ++ ['Z']⟩

/-- Whether a character is a decimal digit. -/
def isDigitChar (c : Char) : Bool := decide ('0' ≤ c) && decide (c ≤ '9')

/-- Shape check over characters for an RFC3339 UTC timestamp of the exact form
`toISOString` emits: `YYYY-MM-DDTHH:MM:SS.mmmZ`. -/
def rfcShape : List Char → Bool
  | [y1, y2, y3, y4, dash1, m1, m2, dash2, d1, d2, tsep,
     h1, h2, c1, n1, n2, c2, s1, s2, dot, f1, f2, f3, z] =>
    isDigitChar y1 && isDigitChar y2 && isDigitChar y3 && isDigitChar y4 &&
    dash1 == '-' && isDigitChar m1 && isDigitChar m2 && dash2 == '-' &&
    isDigitChar d1 && isDigitChar d2 && tsep == 'T' &&
    isDigitChar h1 && isDigitChar h2 && c1 == ':' &&
    isDigitChar n1 && isDigitChar n2 && c2 == ':' &&
    isDigitChar s1 && isDigitChar s2 && dot == '.' &&
    isDigitChar f1 && isDigitChar f2 && isDigitChar f3 && z == 'Z'
  | _ => false

/-- A string is an RFC3339 UTC timestamp in the shape `toISOString` emits. -/
def isRFC3339 (s : String) : Bool := rfcShape s.data

/-- The fields of the argument object that `createMessageEnvelope` reads. -/
structure MessageData where
  type : Option String
  sender_id : String
  recipient_id : String
  encrypted_content : String
deriving DecidableEq

/-- The envelope object `createMessageEnvelope` returns. -/
structure Envelope where
  type : String
  version : String
  timestamp : String
  sender_id : String
  recipient_id : String
  encrypted_content : String
  nonce : String
deriving DecidableEq

/-- `IPFSService.createMessageEnvelope(messageData)`.  The two effects the JS
body performs, reading the clock (`new Date()`) and drawing 16 bytes of entropy
(`crypto.randomBytes(16)`), are explicit arguments `now` and `entropy`. -/
def createMessageEnvelope (msg : MessageData) (now : DateTime) (entropy : List Nat) : Envelope where
  type := jsOrStr msg.type "message"
  version := "1.0"
  timestamp := toISOString now
  sender_id := msg.sender_id
  recipient_id := msg.recipient_id
  encrypted_content := msg.encrypted_content
  nonce := bytesToHex entropy

/-- The JS `gateway.replace(/\/+$/, "")`: delete the maximal run of `/` at the
end of the string. -/
def stripTrailingSlashes (s : String) : String :=
  ⟨(s.data.reverse.dropWhile (fun c => c == '/')).reverse⟩

/-- `IPFSService.getGatewayUrlsForCid(cid)`. -/
def getGatewayUrlsForCid (cfg : IPFSConfig) (cid : String) : List String :=
  cfg.gateways.map (fun gateway => stripTrailingSlashes gateway ++ "/ipfs/" ++ cid)

/-- What the two probes `getNodeInfo` and `getSwarmPeers` yield when they
succeed: the node id and the peer list. -/
structure ProbeData where
  nodeId : String
  peers : List String
deriving DecidableEq

/-- The object `IPFSService.healthCheck` returns; `none` models an absent
field. -/
structure HealthReport where
  status : String
  nodeId : Option String
  peerCount : Option Nat
  pubsubEnabled : Option Bool
  error : Option String
deriving DecidableEq

/-- `IPFSService.healthCheck()`.  It builds a fresh object from the probe
outcome alone (it reads no previous snapshot); the catch branch returns only
`status` and `error`. -/
def healthCheck (cfg : IPFSConfig) (probe : Except String ProbeData) : HealthReport :=
  match probe with
  | .ok d =>
    { status := "healthy", nodeId := some d.nodeId, peerCount := some d.peers.length,
      pubsubEnabled := some cfg.pubsubEnabled, error := none }
  | .error e =>
    { status := "unhealthy", nodeId := none, peerCount := none,
      pubsubEnabled := none, error := some e }

/-- `status.primary.http` in GET /api/transport/status: the literal `true`. -/
def primaryHttp : Bool := true

/-- `status.primary.websocket`: `io.engine.clientsCount >= 0`. -/
def primaryWebsocket (clientsCount : Int) : Bool := decide (clientsCount ≥ 0)

/-- The recommendation computed by GET /api/transport/status.  `ipfsConnected`
is `status.fallback.ipfs`, i.e. `ipfsService ? ipfsService.isConnected : false`.
The branches are the source's `if / else if` chain, with the JS comparison
`websocket !== false` rendered as `!= false` on the boolean. -/
def transportRecommendation (clientsCount : Int) (ipfsConnected : Bool) : String :=
  if primaryHttp && (primaryWebsocket clientsCount != false) then "primary"
  else if primaryHttp || (primaryWebsocket clientsCount != false) then "degraded"
  else if ipfsConnected then "fallback"
  else "disconnected"

/-- The recommendation table as the specification states it, a function of the
two health booleans (live channel healthy, content store healthy).  Used only
for comparison with `transportRecommendation`. -/
def specRecommendation (liveHealthy : Bool) (storeHealthy : Bool) : String :=
  if liveHealthy && storeHealthy then "primary"
  else if liveHealthy && !storeHealthy then "degraded"
  else if !liveHealthy && storeHealthy then "fallback"
  else "disconnected"

/-- The observable outcome of one POST /api/messages request.  The handler body
contains no live-channel send and no pub/sub publish at all; the only transport
action is the IPFS storage block, which runs whenever the service is present
and connected, for every transport_mode.  The fields `publishAttempted` and
`liveSendAttempted` record the absence of those calls from the handler. -/
structure PostMessagesOutcome where
  envelopeBuilt : Bool
  addAttempted : Bool
  publishAttempted : Bool
  liveSendAttempted : Bool
  ipfs_cid : Option String
  transport : String
  status : String
  httpStatus : Nat
deriving DecidableEq

/-- POST /api/messages.  `ipfsReady` is `ipfsService && ipfsService.isConnected`;
`addOutcome` is the result of `ipfsService.addJSON(envelope)` (`.ok cid` or a
thrown error, which the inner catch swallows with a warning). -/
def postMessages (transport_mode : Option String) (ipfsReady : Bool)
    (addOutcome : Except String String) : PostMessagesOutcome :=
  if ipfsReady then
    match addOutcome with
    | .ok cid =>
      { envelopeBuilt := true, addAttempted := true, publishAttempted := false,
        liveSendAttempted := false, ipfs_cid := some cid,
        transport := jsOrStr transport_mode "primary", status := "sent", httpStatus := 200 }
    | .error _ =>
      { envelopeBuilt := true, addAttempted := true, publishAttempted := false,
        liveSendAttempted := false, ipfs_cid := none,
        transport := jsOrStr transport_mode "primary", status := "sent", httpStatus := 200 }
  else
    { envelopeBuilt := false, addAttempted := false, publishAttempted := false,
      liveSendAttempted := false, ipfs_cid := none,
      transport := jsOrStr transport_mode "primary", status := "sent", httpStatus := 200 }

/-- The per-recipient pub/sub topic built on the WebSocket path. -/
def chatTopic (recipient_id : String) : String := "chat-user-" ++ recipient_id

/-- The observable outcome of one `send_encrypted_message` socket event: the
WebSocket emit to the recipient, whether a pub/sub publish was attempted and on
which topic, and the `message_sent` acknowledgment with its `transports_used`
list. -/
structure SocketSendOutcome where
  wsEmitted : Bool
  publishAttempted : Bool
  publishedTopic : Option String
  transports_used : List String
  ackEmitted : Bool
  errorEmitted : Bool
deriving DecidableEq

/-- The `socket.on("send_encrypted_message")` handler.  The WebSocket emit is
unconditional; the pub/sub publish runs only when the service is present and
connected and the preference is exactly "dual", inside its own try/catch, so
`publishOutcome` changes nothing the client observes; `transports_used` is
computed from the requested preference alone. -/
def socketSendEncryptedMessage (recipient_id : String) (transport_preference : Option String)
    (ipfsReady : Bool) (publishOutcome : Except String Unit) : SocketSendOutcome :=
  let dual : Bool := transport_preference == some "dual"
  { wsEmitted := true
    publishAttempted := ipfsReady && dual
    publishedTopic := if ipfsReady && dual then some (chatTopic recipient_id) else none
    transports_used := "websocket" :: (if dual then ["ipfs"] else [])
    ackEmitted := true
    errorEmitted := false }

/-- The response of POST /api/ipfs/add. -/
inductive AddResponse where
  | unavailable
  | badRequest
  | okResponse (cid : String) (gateways : List String) (localGateway : String) (size : Nat)
  | serverError
deriving DecidableEq

/-- POST /api/ipfs/add.  `ready` is `ipfsService && ipfsService.isConnected`;
`decodedSize` the length of the base64-decoded buffer; `addOutcome` the result
of `ipfsService.addBuffer`.  On success the response carries the CID, the
gateway URL list for that CID, and the local gateway URL. -/
def apiIpfsAdd (cfg : IPFSConfig) (ready : Bool) (payload_b64 : Option String)
    (decodedSize : Nat) (addOutcome : Except String String) : AddResponse :=
  if !ready then .unavailable
  else
    match payload_b64 with
    | none => .badRequest
    | some p =>
      if p = "" then .badRequest
      else
        match addOutcome with
        | .ok cid =>
          .okResponse cid (getGatewayUrlsForCid cfg cid)
            ("http://192.168.4.39:8080/ipfs/" ++ cid) decodedSize
        | .error _ => .serverError

/-- The string `u` ends in `tail`: the characters of `tail` are a suffix of the
characters of `u`. -/
def strEndsWith (u : String) (tail : String) : Prop := tail.data <:+ u.data

/-- Characters of a string concatenation. -/
theorem string_data_append (a b : String) : (a ++ b).data = a.data ++ b.data := by
  cases a
  cases b
  rfl

/-- A concatenation of two strings ends in its right operand. -/
theorem strEndsWith_append (a b : String) : strEndsWith (a ++ b) b := by
  unfold strEndsWith
  rw [string_data_append]
  exact List.suffix_append a.data b.data

/-- A concatenation of three strings ends in its rightmost operand. -/
theorem strEndsWith_append3 (a b c : String) : strEndsWith (a ++ b ++ c) c := by
  unfold strEndsWith
  rw [string_data_append, string_data_append]
  exact List.suffix_append (a.data ++ b.data) c.data

/-- Every decimal digit character passes the digit check. -/
theorem isDigitChar_decDigit (n : Nat) : isDigitChar (decDigit n) = true := by
  unfold decDigit
  split <;> decide

/-- The output of `toISOString` always passes the RFC3339 shape check. -/
theorem isRFC3339_toISOString (d : DateTime) : isRFC3339 (toISOString d) = true := by
  simp [isRFC3339, toISOString, pad4, pad3, pad2, rfcShape, isDigitChar_decDigit]

/-- The hex rendering of a byte list has two characters per byte. -/
theorem hexOfBytes_length (bs : List Nat) : (hexOfBytes bs).length = 2 * bs.length := by
  induction bs with
  | nil => rfl
  | cons b t ih =>
    show (byteToHex b ++ hexOfBytes t).length = 2 * (b :: t).length
    have hb : (byteToHex b).length = 2 := rfl
    rw [List.length_append, hb, ih, List.length_cons]
    omega

/-- The hex string of a byte list has two characters per byte. -/
theorem bytesToHex_length (bs : List Nat) : (bytesToHex bs).length = 2 * bs.length :=
  hexOfBytes_length bs

/-- Claim C1, counterexample: with the live channel healthy (connection count 0,
hence non-negative) and the content store unhealthy, the endpoint recommends
"primary", while the claimed table maps (true, false) to "degraded".  The
recommendation therefore is not the claimed function of the two health
booleans. -/
theorem c1_recommendation_table_refuted :
    transportRecommendation 0 false = "primary" ∧
    specRecommendation true false = "degraded" ∧
    transportRecommendation 0 false ≠ specRecommendation true false := by
  refine ⟨by decide, by decide, by decide⟩

/-- Claim C1, amended: since `status.primary.http` is the hardcoded literal
`true`, the recommendation is a pure function of the connection count alone:
"primary" when the count is non-negative, otherwise "degraded".  The
content-store boolean is never consulted, and the "fallback" and "disconnected"
branches are unreachable. -/
theorem c1_recommendation_depends_only_on_live (c : Int) (b b' : Bool) :
    transportRecommendation c b = (if 0 ≤ c then "primary" else "degraded") ∧
    transportRecommendation c b = transportRecommendation c b' := by
  by_cases h : (0 : Int) ≤ c
  · have hw : primaryWebsocket c = true := decide_eq_true h
    simp [transportRecommendation, primaryHttp, hw, h]
  · have hw : primaryWebsocket c = false := decide_eq_false h
    simp [transportRecommendation, primaryHttp, hw, h]

/-- Claim C2, counterexample: in dual mode the acknowledged result is literally
identical whether the fallback publish threw or succeeded, and its
`transports_used` list names "ipfs" even in the failing run; the result
therefore records no per-transport succeeded/detail outcome, contrary to the
claim. -/
theorem c2_dual_ack_ignores_publish_outcome :
    socketSendEncryptedMessage "u1" (some "dual") true (.error "publish failed") =
      socketSendEncryptedMessage "u1" (some "dual") true (.ok ()) ∧
    (socketSendEncryptedMessage "u1" (some "dual") true
        (.error "publish failed")).transports_used = ["websocket", "ipfs"] :=
  ⟨rfl, rfl⟩

/-- Claim C2, amended: for every dual-mode request with the service connected,
both branches run — the live-channel emit unconditionally, and the pub/sub
publish inside its own try/catch, so a publish failure never prevents the emit
or the acknowledgment — but the acknowledgment is a fixed record whose
`transports_used` list is computed from the requested preference alone; it
carries no per-transport attempted/succeeded/detail fields and is the same
whether the publish succeeds or fails. -/
theorem c2_dual_both_attempted_fixed_ack (rid : String) (pub : Except String Unit) :
    socketSendEncryptedMessage rid (some "dual") true pub =
      { wsEmitted := true, publishAttempted := true,
        publishedTopic := some (chatTopic rid),
        transports_used := ["websocket", "ipfs"],
        ackEmitted := true, errorEmitted := false } := by
  rfl

/-- Claim C3, counterexample: a request with transport_mode "primary", with the
store service connected and the Add succeeding, still builds an envelope,
attempts the content-store Add, and records the resulting CID — the claim that
no envelope construction or Add occurs for mode=primary is false. -/
theorem c3_primary_mode_still_adds_to_store :
    (postMessages (some "primary") true (.ok "QmDemo")).envelopeBuilt = true ∧
    (postMessages (some "primary") true (.ok "QmDemo")).addAttempted = true ∧
    (postMessages (some "primary") true (.ok "QmDemo")).ipfs_cid = some "QmDemo" :=
  ⟨rfl, rfl, rfl⟩

/-- Claim C3, amended: the POST /api/messages handler ignores transport_mode
when dispatching: whenever the store service is present and connected it builds
the envelope and attempts the Add (for every mode), and when it is not, it does
neither; it never attempts a live-channel send, and it answers 200 with a
"sent" message in all of these cases — mode only sets the response's transport
label. -/
theorem c3_post_messages_ignores_mode (mode : Option String) (r : Except String String) :
    (postMessages mode true r).envelopeBuilt = true ∧
    (postMessages mode true r).addAttempted = true ∧
    (postMessages mode false r).envelopeBuilt = false ∧
    (postMessages mode false r).addAttempted = false ∧
    ∀ ready : Bool, (postMessages mode ready r).liveSendAttempted = false ∧
      (postMessages mode ready r).httpStatus = 200 := by
  cases r <;> exact ⟨rfl, rfl, rfl, rfl, fun ready => by cases ready <;> exact ⟨rfl, rfl⟩⟩

/-- Claim C4, counterexample: a mode=fallback delivery never reaches a Publish —
the HTTP handler performs no pub/sub publish even when the Add succeeds, and the
WebSocket handler skips the publish for preference "fallback" (it publishes only
for "dual"). -/
theorem c4_fallback_mode_never_publishes :
    (postMessages (some "fallback") true (.ok "QmDemo")).publishAttempted = false ∧
    (socketSendEncryptedMessage "u1" (some "fallback") true (.ok ())).publishAttempted = false :=
  ⟨rfl, by decide⟩

/-- Claim C4, amended: the HTTP handler builds the Envelope and attempts the
content-store Add for a mode=fallback request (as for every mode) but performs
no Publish at all; the best-effort Publish to the deterministic per-recipient
topic "chat-user-" ++ recipient_id — whose failure is caught and fails neither
the acknowledgment nor the request — exists only in the WebSocket handler and
only for preference "dual". -/
theorem c4_add_without_publish_and_dual_topic (rid : String) (r : Except String String)
    (pub : Except String Unit) :
    (postMessages (some "fallback") true r).envelopeBuilt = true ∧
    (postMessages (some "fallback") true r).addAttempted = true ∧
    (postMessages (some "fallback") true r).publishAttempted = false ∧
    (socketSendEncryptedMessage rid (some "dual") true pub).publishedTopic =
      some ("chat-user-" ++ rid) ∧
    (socketSendEncryptedMessage rid (some "dual") true pub).ackEmitted = true ∧
    (socketSendEncryptedMessage rid (some "dual") true pub).errorEmitted = false := by
  cases r <;> exact ⟨rfl, rfl, rfl, rfl, rfl, rfl⟩

/-- Claim C5: when the stored configuration has pub/sub administratively
disabled, `pubsubPublish` returns normally for every topic, payload and network
state, reporting that no network publish call was attempted (`.ok false`): it
fails silently rather than propagating anything to the caller. -/
theorem c5_pubsub_disabled_silent (cfg : IPFSConfig) (topic message : String)
    (net : Except String Unit) (h : cfg.pubsubEnabled = false) :
    pubsubPublish cfg topic message net = .ok false := by
  simp [pubsubPublish, h]

/-- Claim C5, witness: a concrete disabled configuration with a failing network
still yields a silent, attempt-free return. -/
theorem c5_pubsub_disabled_silent_witness :
    ({ apiUrl := "http://ipfs:5001/api/v0", gateways := [], pubsubEnabled := false,
        timeout := 15000 } : IPFSConfig).pubsubEnabled = false ∧
    pubsubPublish
      { apiUrl := "http://ipfs:5001/api/v0", gateways := [], pubsubEnabled := false,
        timeout := 15000 } "chat-user-u1" "payload" (.error "daemon unreachable") = .ok false :=
  ⟨rfl, c5_pubsub_disabled_silent _ _ _ _ rfl⟩

/-- Claim C6: for every message, clock reading and 16-byte entropy draw, the
envelope has version exactly "1.0", an RFC3339 timestamp, the sender_id,
recipient_id and payload copied unchanged from the message, and a nonce of
exactly 32 hex characters (two per entropy byte). -/
theorem c6_envelope_fields (msg : MessageData) (now : DateTime) (entropy : List Nat)
    (h : entropy.length = 16) :
    (createMessageEnvelope msg now entropy).version = "1.0" ∧
    isRFC3339 (createMessageEnvelope msg now entropy).timestamp = true ∧
    (createMessageEnvelope msg now entropy).sender_id = msg.sender_id ∧
    (createMessageEnvelope msg now entropy).recipient_id = msg.recipient_id ∧
    (createMessageEnvelope msg now entropy).encrypted_content = msg.encrypted_content ∧
    (createMessageEnvelope msg now entropy).nonce.length = 32 := by
  refine ⟨rfl, isRFC3339_toISOString now, rfl, rfl, rfl, ?_⟩
  show (bytesToHex entropy).length = 32
  rw [bytesToHex_length, h]

/-- Claim C6, witness: a concrete message, clock reading and all-zero 16-byte
entropy draw produce an envelope with all of the claimed field properties. -/
theorem c6_envelope_fields_witness :
    (List.replicate 16 0).length = 16 ∧
    ((createMessageEnvelope ⟨some "message", "alice", "bob", "cipher"⟩
        ⟨2026, 10, 11, 12, 30, 45, 123⟩ (List.replicate 16 0)).version = "1.0" ∧
      isRFC3339 (createMessageEnvelope ⟨some "message", "alice", "bob", "cipher"⟩
        ⟨2026, 10, 11, 12, 30, 45, 123⟩ (List.replicate 16 0)).timestamp = true ∧
      (createMessageEnvelope ⟨some "message", "alice", "bob", "cipher"⟩
        ⟨2026, 10, 11, 12, 30, 45, 123⟩ (List.replicate 16 0)).sender_id = "alice" ∧
      (createMessageEnvelope ⟨some "message", "alice", "bob", "cipher"⟩
        ⟨2026, 10, 11, 12, 30, 45, 123⟩ (List.replicate 16 0)).recipient_id = "bob" ∧
      (createMessageEnvelope ⟨some "message", "alice", "bob", "cipher"⟩
        ⟨2026, 10, 11, 12, 30, 45, 123⟩ (List.replicate 16 0)).encrypted_content = "cipher" ∧
      (createMessageEnvelope ⟨some "message", "alice", "bob", "cipher"⟩
        ⟨2026, 10, 11, 12, 30, 45, 123⟩ (List.replicate 16 0)).nonce.length = 32) :=
  ⟨by decide, c6_envelope_fields _ _ _ (by decide)⟩

/-- Claim C7, counterexample: two invocations of the envelope builder on the
same message input and even the same clock reading, whose entropy draws differ,
produce unequal envelopes (their nonces differ), so envelope construction is
not a deterministic function of the message input. -/
theorem c7_envelope_differs_across_invocations :
    createMessageEnvelope ⟨none, "alice", "bob", "cipher"⟩ ⟨2026, 1, 1, 0, 0, 0, 0⟩
        (List.replicate 16 0) ≠
      createMessageEnvelope ⟨none, "alice", "bob", "cipher"⟩ ⟨2026, 1, 1, 0, 0, 0, 0⟩
        (1 :: List.replicate 15 0) := by
  decide

/-- Claim C7, amended: envelope construction performs no external writes and is
deterministic in (message, clock reading, entropy draw): the type, version,
sender_id, recipient_id and payload fields depend on the message alone — equal
across any two invocations on the same message — while the timestamp and nonce
are exactly the rendering of the per-call clock and drawn entropy, so two
invocations drawing different entropy yield different envelopes. -/
theorem c7_envelope_deterministic_given_inputs (msg : MessageData)
    (n1 n2 : DateTime) (e1 e2 : List Nat) :
    (createMessageEnvelope msg n1 e1).type = (createMessageEnvelope msg n2 e2).type ∧
    (createMessageEnvelope msg n1 e1).version = (createMessageEnvelope msg n2 e2).version ∧
    (createMessageEnvelope msg n1 e1).sender_id = (createMessageEnvelope msg n2 e2).sender_id ∧
    (createMessageEnvelope msg n1 e1).recipient_id =
      (createMessageEnvelope msg n2 e2).recipient_id ∧
    (createMessageEnvelope msg n1 e1).encrypted_content =
      (createMessageEnvelope msg n2 e2).encrypted_content ∧
    (createMessageEnvelope msg n1 e1).timestamp = toISOString n1 ∧
    (createMessageEnvelope msg n1 e1).nonce = bytesToHex e1 :=
  ⟨rfl, rfl, rfl, rfl, rfl, rfl, rfl⟩

/-- Claim C8: whenever the health probe fails with a non-empty failure message,
the snapshot is a fresh object reporting "unhealthy" with the error populated,
and its node-id, peer-count and pub/sub detail fields are all absent — no
detail survives next to the error state (the function reads no previous
snapshot at all). -/
theorem c8_healthcheck_failure_clears_detail (cfg : IPFSConfig) (e : String) (h : e ≠ "") :
    (healthCheck cfg (.error e)).status = "unhealthy" ∧
    (healthCheck cfg (.error e)).error = some e ∧ e ≠ "" ∧
    (healthCheck cfg (.error e)).nodeId = none ∧
    (healthCheck cfg (.error e)).peerCount = none ∧
    (healthCheck cfg (.error e)).pubsubEnabled = none :=
  ⟨rfl, rfl, h, rfl, rfl, rfl⟩

/-- Claim C8, witness: a concrete failed probe yields the unhealthy,
detail-free snapshot with the non-empty error message. -/
theorem c8_healthcheck_failure_witness :
    "connect ECONNREFUSED" ≠ "" ∧
    ((healthCheck ⟨"http://ipfs:5001/api/v0", [], true, 15000⟩
        (.error "connect ECONNREFUSED")).status = "unhealthy" ∧
      (healthCheck ⟨"http://ipfs:5001/api/v0", [], true, 15000⟩
        (.error "connect ECONNREFUSED")).error = some "connect ECONNREFUSED" ∧
      "connect ECONNREFUSED" ≠ "" ∧
      (healthCheck ⟨"http://ipfs:5001/api/v0", [], true, 15000⟩
        (.error "connect ECONNREFUSED")).nodeId = none ∧
      (healthCheck ⟨"http://ipfs:5001/api/v0", [], true, 15000⟩
        (.error "connect ECONNREFUSED")).peerCount = none ∧
      (healthCheck ⟨"http://ipfs:5001/api/v0", [], true, 15000⟩
        (.error "connect ECONNREFUSED")).pubsubEnabled = none) :=
  ⟨by decide, c8_healthcheck_failure_clears_detail _ _ (by decide)⟩

/-- Claim C9: the successful-add response carries the non-empty CID, the local
gateway URL ending in that CID, and the configured-gateway URLs, each of which
is exactly the base URL with trailing slashes removed followed by "/ipfs/" and
the CID — a pure string operation — and hence ends in the CID. -/
theorem c9_add_response_gateway_urls (cfg : IPFSConfig) (p : String) (sz : Nat) (cid : String)
    (hp : p ≠ "") (hc : cid ≠ "") :
    apiIpfsAdd cfg true (some p) sz (.ok cid) =
      AddResponse.okResponse cid (getGatewayUrlsForCid cfg cid)
        ("http://192.168.4.39:8080/ipfs/" ++ cid) sz ∧
    cid ≠ "" ∧
    strEndsWith ("http://192.168.4.39:8080/ipfs/" ++ cid) cid ∧
    ∀ u ∈ getGatewayUrlsForCid cfg cid,
      strEndsWith u cid ∧ ∃ g ∈ cfg.gateways, u = stripTrailingSlashes g ++ "/ipfs/" ++ cid := by
  refine ⟨by simp [apiIpfsAdd, hp], hc, strEndsWith_append _ _, ?_⟩
  intro u hu
  rcases List.mem_map.mp hu with ⟨g, hg, rfl⟩
  exact ⟨strEndsWith_append3 _ _ _, g, hg, rfl⟩

/-- Claim C9, witness: a concrete reachable store, payload and returned CID
produce the claimed response shape with every gateway URL ending in the CID. -/
theorem c9_add_response_gateway_urls_witness :
    "SGVsbG8=" ≠ "" ∧ "QmTest" ≠ "" ∧
    (apiIpfsAdd ⟨"http://ipfs:5001/api/v0", ["https://ipfs.io/"], true, 15000⟩ true
        (some "SGVsbG8=") 5 (.ok "QmTest") =
      AddResponse.okResponse "QmTest"
        (getGatewayUrlsForCid ⟨"http://ipfs:5001/api/v0", ["https://ipfs.io/"], true, 15000⟩
          "QmTest")
        ("http://192.168.4.39:8080/ipfs/" ++ "QmTest") 5 ∧
    "QmTest" ≠ "" ∧
    strEndsWith ("http://192.168.4.39:8080/ipfs/" ++ "QmTest") "QmTest" ∧
    ∀ u ∈ getGatewayUrlsForCid ⟨"http://ipfs:5001/api/v0", ["https://ipfs.io/"], true, 15000⟩
        "QmTest",
      strEndsWith u "QmTest" ∧
        ∃ g ∈ (⟨"http://ipfs:5001/api/v0", ["https://ipfs.io/"], true, 15000⟩ :
            IPFSConfig).gateways,
          u = stripTrailingSlashes g ++ "/ipfs/" ++ "QmTest") :=
  ⟨by decide, by decide,
    c9_add_response_gateway_urls _ "SGVsbG8=" 5 "QmTest" (by decide) (by decide)⟩

/-- Claim C10: the constructor's falsy-OR defaulting (`config.pubsubEnabled ||
true`) maps both an explicit `false` and an absent field to `true`, so the
stored configuration always has pub/sub enabled — it cannot be disabled through
the constructor's config parameter. -/
theorem c10_pubsub_never_disabled (c : IPFSUserConfig)
    (h : c.pubsubEnabled = some false ∨ c.pubsubEnabled = none) :
    (mkServiceConfig c).pubsubEnabled = true := by
  rcases h with h | h <;> simp [mkServiceConfig, jsOrBool, h]

/-- Claim C10, witness: the server's own call site shape — pub/sub explicitly
passed as `false` — still yields a stored configuration with pub/sub enabled. -/
theorem c10_pubsub_never_disabled_witness :
    ((⟨some "http://ipfs:5001/api/v0", some [], some false, none⟩ :
        IPFSUserConfig).pubsubEnabled = some false ∨
      (⟨some "http://ipfs:5001/api/v0", some [], some false, none⟩ :
        IPFSUserConfig).pubsubEnabled = none) ∧
    (mkServiceConfig ⟨some "http://ipfs:5001/api/v0", some [], some false, none⟩).pubsubEnabled =
      true :=
  ⟨Or.inl rfl, c10_pubsub_never_disabled _ (Or.inl rfl)⟩

end SecureChat
